import Mathlib

/-!
Shallow embedding of the wav2flac batch-conversion pipeline
(`wav2flac_cmdline.py`, `wav2flac_gui.py`): path layout computations,
the file scanner, the cache capacity check, the per-file conversion
outcome, and the cleanup-on-exit structure of the main run.
-/

namespace Wav2Flac

/-! ## Path model

A filesystem path is modelled as its list of components
(`pathlib.Path` parts).  `relative_to`, `parent` (`dropLast`),
`name` (`getLastD ""`) and `stem` mirror the `pathlib` operations
used by the source.
-/

/-- A path is a list of name components. -/
abbrev FsPath := List String

/-- Model of `pathlib.PurePath.relative_to`: drops `base` from the front of
`p` when `base` is a leading run of `p`'s components, otherwise fails
(pathlib raises `ValueError`). -/
def relative_to (p base : FsPath) : Option FsPath :=
  if p.take base.length = base then some (p.drop base.length) else none

/-- Index of the last '.' in a component, if any. -/
def lastDotIdx (cs : List Char) : Option Nat :=
  ((List.range cs.length).filter (fun i => cs.getD i ' ' = '.')).getLast?

/-- Model of `pathlib.PurePath.stem` on a single name component: the name
with its last suffix removed, where a suffix exists only when the last '.'
is neither the first nor the last character. -/
def stemChars (cs : List Char) : List Char :=
  match lastDotIdx cs with
  | some i => if 0 < i ∧ i + 1 < cs.length then cs.take i else cs
  | none => cs

/-- `stem` on a name given as a `String`. -/
def stem (s : String) : String := String.mk (stemChars s.data)

/-! ## Output directory and per-file destination path

From `create_output_directory` (wav2flac_cmdline.py lines 615-623) and the
path computation inside `convert_wav_to_flac_ffmpeg` (lines 260-276).
-/

/-- From `create_output_directory`: the output root is
`input_dir.parent / (input_dir.name + "_converted")`. -/
def create_output_directory (input_dir : FsPath) : FsPath :=
  input_dir.dropLast ++ [input_dir.getLastD "" ++ "_converted"]

/-- The relative-path computation at the top of `convert_wav_to_flac_ffmpeg`:
`if original_input_dir and original_input_dir != input_dir:` take
`wav_path.relative_to(input_dir)`, `else` take
`wav_path.relative_to(input_dir)` (the two branches of the source
conditional are identical; both are kept to mirror it). -/
def convertRelativePath (wav_path input_dir : FsPath)
    (original_input_dir : Option FsPath) : Option FsPath :=
  match original_input_dir with
  | some o =>
      if o ≠ input_dir then relative_to wav_path input_dir
      else relative_to wav_path input_dir
  | none => relative_to wav_path input_dir

/-- The destination path built by `convert_wav_to_flac_ffmpeg`:
`output_dir / relative_path.parent / (wav_path.stem + ".flac")`. -/
def convertOutputFilePath (wav_path input_dir output_dir : FsPath)
    (original_input_dir : Option FsPath) : Option FsPath :=
  (convertRelativePath wav_path input_dir original_input_dir).map fun rel =>
    output_dir ++ rel.dropLast ++ [stem (wav_path.getLastD "") ++ ".flac"]

/-- From `copy_single_file_to_cache` (lines 437-455): the staged copy of
`wav_file` lives at `cache_dir / wav_file.relative_to(input_dir)`. -/
def cachedFilePath (wav_file input_dir cache_dir : FsPath) : Option FsPath :=
  (relative_to wav_file input_dir).map fun rel => cache_dir ++ rel

/-! ## File scanner

From `find_wav_files` (wav2flac_cmdline.py lines 605-613, identical in the
GUI): `sorted(set(directory.rglob('*.wav')) ∪ set(directory.rglob('*.WAV')))`.
A directory tree is an inductive `Node`; the root argument is an
`Option Node` (`none` models a path that does not exist).  `pathlib`'s glob
yields nothing when the root is missing or is not a directory, and glob
pattern matching is case-sensitive on POSIX and case-insensitive on
Windows, so the matcher takes a `caseSensitive` flag.
-/

/-- A filesystem node: a plain file or a directory with named children. -/
inductive Node where
  | file : Node
  | dir : List (String × Node) → Node

/-- Whether a name component matches the glob pattern `*` followed by
`pat` (so `pat` is the literal tail such as ".wav"): a suffix match,
case-folded when matching is case-insensitive. -/
def globMatch (caseSensitive : Bool) (pat name : String) : Bool :=
  if caseSensitive then pat.data.isSuffixOf name.data
  else (pat.data.map Char.toLower).isSuffixOf (name.data.map Char.toLower)

/-- Recursive glob over directory entries, collecting the (relative)
paths of all entries whose final component matches the pattern, as
`Path.rglob` does (matching entries may be files or directories). -/
def rglobEntries (caseSensitive : Bool) (pat : String) :
    List (String × Node) → List FsPath
  | [] => []
  | (name, Node.file) :: rest =>
      (if globMatch caseSensitive pat name then [[name]] else []) ++
        rglobEntries caseSensitive pat rest
  | (name, Node.dir sub) :: rest =>
      (if globMatch caseSensitive pat name then [[name]] else []) ++
        (rglobEntries caseSensitive pat sub).map (fun p => name :: p) ++
        rglobEntries caseSensitive pat rest

/-- `Path.rglob` from a root: yields nothing when the root does not exist
or is not a directory (pathlib's selector checks `is_dir` and returns an
empty iterator in that case, raising no error). -/
def rglob (caseSensitive : Bool) (pat : String) : Option Node → List FsPath
  | some (Node.dir children) => rglobEntries caseSensitive pat children
  | _ => []

/-- Model of Python `sorted(set(l))`: deduplicate, then sort. -/
def sortedSet (l : List FsPath) : List FsPath :=
  l.dedup.insertionSort (· ≤ ·)

/-- `find_wav_files`: the two recursive globs `*.wav` and `*.WAV`
combined, deduplicated and sorted. -/
def find_wav_files (caseSensitive : Bool) (root : Option Node) : List FsPath :=
  sortedSet (rglob caseSensitive ".wav" root ++ rglob caseSensitive ".WAV" root)

/-! ## Capacity check

From `check_cache_disk_space` (wav2flac_cmdline.py lines 461-504).  Sizes
are exact rationals; the literal `1.2` is `6/5`.  The free-space query may
fail (`shutil.disk_usage` raising), modelled as an `Except`; in that case
the source warns and prompts the user, and returns the user's choice as
the same plain boolean it returns in the sufficient / insufficient cases.
-/

/-- `check_cache_disk_space`: `required = total * 1.2`; returns `false`
when `free < required`, `true` otherwise; on a failed free-space query,
returns the user's proceed-anyway choice. -/
def check_cache_disk_space (total_size_bytes : ℚ)
    (free_space : Except String ℚ) (user_proceed : Bool) : Bool :=
  match free_space with
  | Except.ok free =>
      let required_space_bytes := total_size_bytes * (6 / 5)
      if free < required_space_bytes then false else true
  | Except.error _ => user_proceed

/-- One gibibyte (the source reports sizes in units of `1024 ** 3`). -/
def GB : ℚ := 1024 ^ 3

/-! ## Per-file conversion outcome

From `convert_wav_to_flac_ffmpeg` (wav2flac_cmdline.py lines 240-329).
The external transcoder subprocess is an opaque collaborator, modelled by
its observable behaviour: how long it runs, its exit code, its error
stream, and whether the destination file exists afterwards.
`subprocess.run(..., timeout=300)` raises `TimeoutExpired` when the
process runs longer than the limit.
-/

/-- Observable behaviour of one transcoder subprocess invocation. -/
structure FFmpegRun where
  duration : ℚ
  exitCode : Int
  stderrText : String
  outputWritten : Bool

/-- Result of `subprocess.run` under a timeout: either the process
completed (with exit code and captured error stream), or
`TimeoutExpired` was raised. -/
inductive ProcResult where
  | completed : Int → String → ProcResult
  | timedOutExn : ProcResult

/-- `subprocess.run(ffmpeg_cmd, ..., timeout=limit)`. -/
def subprocess_run (limit : ℚ) (b : FFmpegRun) : ProcResult :=
  if limit < b.duration then ProcResult.timedOutExn
  else ProcResult.completed b.exitCode b.stderrText

/-- The distinct per-file messages produced by
`convert_wav_to_flac_ffmpeg`, one constructor per source message:
`converted` models the success f-string naming the output file, the
compression ratio and the duration; `outputNotFound` models
"FFmpeg completed but output file not found"; `ffmpegError` models
"FFmpeg error (code ...): ..."; `timedOut` models
"Conversion timed out (>5 minutes)". -/
inductive ConvMessage where
  | converted : String → ℚ → ℚ → ConvMessage
  | outputNotFound : ConvMessage
  | ffmpegError : Int → String → ConvMessage
  | timedOut : ConvMessage

/-- The tuple returned by `convert_wav_to_flac_ffmpeg`:
`(success, relative_path, message, input_size, output_size, duration)`. -/
structure ConversionResult where
  success : Bool
  relative_path : FsPath
  message : ConvMessage
  input_size : Nat
  output_size : Nat
  duration : ℚ

/-- The compression ratio computed on success:
`(1 - output_size / input_size) * 100 if input_size > 0 else 0`. -/
def compression_ratio (output_size input_size : Nat) : ℚ :=
  if 0 < input_size then (1 - (output_size : ℚ) / (input_size : ℚ)) * 100
  else 0

/-- The outcome-handling of `convert_wav_to_flac_ffmpeg` after the paths
have been computed: run the subprocess with a 300-second timeout; on exit
code 0 check that the output file exists (reporting
`ConvMessage.outputNotFound` if it does not) and otherwise report success
with the compression ratio; on a nonzero exit code report the code and
error stream; on `TimeoutExpired` report the timeout failure. -/
def convert_wav_to_flac (b : FFmpegRun) (rel : FsPath)
    (output_filename : String) (input_size output_size : Nat) :
    ConversionResult :=
  match subprocess_run 300 b with
  | ProcResult.completed code err =>
      if code = 0 then
        if b.outputWritten then
          { success := true, relative_path := rel,
            message := ConvMessage.converted output_filename
              (compression_ratio output_size input_size) b.duration,
            input_size := input_size, output_size := output_size,
            duration := b.duration }
        else
          { success := false, relative_path := rel,
            message := ConvMessage.outputNotFound,
            input_size := input_size, output_size := 0,
            duration := b.duration }
      else
        { success := false, relative_path := rel,
          message := ConvMessage.ffmpegError code err,
          input_size := input_size, output_size := 0,
          duration := b.duration }
  | ProcResult.timedOutExn =>
      { success := false, relative_path := rel,
        message := ConvMessage.timedOut,
        input_size := input_size, output_size := 0,
        duration := b.duration }

/-! ## Run structure and guaranteed cache cleanup

From `main` (wav2flac_cmdline.py lines 700-877) and `conversion_worker`
(wav2flac_gui.py): the whole run body executes inside `try: ... finally:`
with the `finally` block removing the staging directory when one was set
up.  The body is modelled as an arbitrary state transformer that ends in
one of the three ways a Python block can end here: normal completion, an
exception, or a `KeyboardInterrupt` (cancellation); `finally` runs in
every case.
-/

/-- The parts of the world the cleanup logic can observe: whether the
staging (cache) directory currently exists, plus the converted outputs
(which cleanup must not touch). -/
structure MainState where
  cacheDirOnDisk : Bool
  convertedOutputs : List FsPath

/-- How the `try` body ended: normal completion, an exception raised
mid-run, or cancellation by the user (`KeyboardInterrupt`). -/
inductive RunExit where
  | completed : RunExit
  | raised : String → RunExit
  | interrupted : RunExit

/-- Python `try/finally`: the body runs first and ends in some way; the
`finally` block then runs on the resulting state no matter how the body
ended, and the body's way of ending is propagated. -/
def tryFinallyRun (body : MainState → RunExit × MainState)
    (finalizer : MainState → MainState) (s : MainState) :
    RunExit × MainState :=
  let r := body s
  (r.1, finalizer r.2)

/-- Effect of `cleanup_cache` when the directory exists:
`shutil.rmtree(cache_dir)` removes it; converted outputs are untouched. -/
def cleanup_cache (s : MainState) : MainState :=
  { s with cacheDirOnDisk := false }

/-- The `finally` block of `main`:
`if cache_dir and cache_dir.exists(): cleanup_cache(cache_dir, ...)`,
where `cache_dir` is non-None exactly when caching was set up. -/
def mainFinally (cacheDirSet : Bool) (s : MainState) : MainState :=
  if cacheDirSet && s.cacheDirOnDisk then cleanup_cache s else s

/-- The whole of `main`'s protected region: the run body under
`try/finally` with the cache-cleanup finalizer. -/
def main_run (cacheDirSet : Bool) (body : MainState → RunExit × MainState)
    (s : MainState) : RunExit × MainState :=
  tryFinallyRun body (mainFinally cacheDirSet) s

/-! ## Helper lemmas -/

/-- Appending a nonempty tail moves `getLastD` to the tail. -/
theorem getLastD_append_right (l r : FsPath) (h : r ≠ []) :
    (l ++ r).getLastD "" = r.getLastD "" := by
  rw [List.getLastD_eq_getLast?, List.getLastD_eq_getLast?,
    List.getLast?_append_of_ne_nil l h]

/-- `relative_to` peels a known leading run of components. -/
theorem relative_to_append (base r : FsPath) :
    relative_to (base ++ r) base = some r := by
  simp [relative_to, List.take_left, List.drop_left]

/-- The source's relative-path conditional computes
`wav_path.relative_to(input_dir)` in every case: its two branches are
identical, so the choice of branch (and the original-root argument) is
irrelevant. -/
theorem convertRelativePath_eq (wav input : FsPath) (o : Option FsPath) :
    convertRelativePath wav input o = relative_to wav input := by
  cases o with
  | none => rfl
  | some v => simp [convertRelativePath]

/-! ## Claim theorems -/

/-- Claim C1: staging is transparent to output layout.  For every file
with relative path `r` under the source root, its staged copy lives at
`cache_root ++ r`; the destination relative path computed when converting
the staged copy equals the one computed when converting the original
directly (both are `r`, covering files directly at the root, whose
relative parent is empty), and the full destination paths coincide. -/
theorem c1_staging_transparent_layout
    (source_root cache_root output_root r : FsPath) (hr : r ≠ []) :
    cachedFilePath (source_root ++ r) source_root cache_root
      = some (cache_root ++ r) ∧
    convertRelativePath (cache_root ++ r) cache_root (some source_root)
      = some r ∧
    convertRelativePath (source_root ++ r) source_root none = some r ∧
    convertOutputFilePath (cache_root ++ r) cache_root output_root
        (some source_root)
      = convertOutputFilePath (source_root ++ r) source_root output_root
          none := by
  refine ⟨?_, ?_, ?_, ?_⟩
  · simp [cachedFilePath, relative_to_append]
  · rw [convertRelativePath_eq, relative_to_append]
  · rw [convertRelativePath_eq, relative_to_append]
  · simp only [convertOutputFilePath, convertRelativePath_eq,
      relative_to_append, Option.map_some]
    rw [getLastD_append_right cache_root r hr,
      getLastD_append_right source_root r hr]

/-- Witness for C1 at a file directly at the source root (empty relative
parent). -/
theorem c1_staging_transparent_layout_witness :
    (["a.wav"] : FsPath) ≠ [] ∧
    (cachedFilePath ["src", "a.wav"] ["src"] ["cache"]
        = some (["cache"] ++ ["a.wav"]) ∧
      convertRelativePath (["cache"] ++ ["a.wav"]) ["cache"] (some ["src"])
        = some ["a.wav"] ∧
      convertRelativePath (["src"] ++ ["a.wav"]) ["src"] none
        = some ["a.wav"] ∧
      convertOutputFilePath (["cache"] ++ ["a.wav"]) ["cache"] ["out"]
          (some ["src"])
        = convertOutputFilePath (["src"] ++ ["a.wav"]) ["src"] ["out"]
            none) :=
  ⟨by decide,
    c1_staging_transparent_layout ["src"] ["cache"] ["out"] ["a.wav"]
      (by decide)⟩

/-- Claim C2: for a source file at relative path `r` under input
directory `D`, the converted output is placed at
`D.parent / (D.name + "_converted") / r.parent / (stem + ".flac")`. -/
theorem c2_output_path_layout (D r : FsPath) (hr : r ≠ []) :
    convertOutputFilePath (D ++ r) D (create_output_directory D) none
      = some (D.dropLast ++ [D.getLastD "" ++ "_converted"]
          ++ r.dropLast ++ [stem (r.getLastD "") ++ ".flac"]) := by
  simp only [convertOutputFilePath, convertRelativePath_eq,
    relative_to_append, Option.map_some, create_output_directory]
  rw [getLastD_append_right D r hr]
  simp [List.append_assoc]

/-- Witness for C2 on a nested file `sub/b.wav` under input directory
`music`: the destination is `music_converted/sub/b.flac`. -/
theorem c2_output_path_layout_witness :
    (["sub", "b.wav"] : FsPath) ≠ [] ∧
    convertOutputFilePath (["music"] ++ ["sub", "b.wav"]) ["music"]
        (create_output_directory ["music"]) none
      = some ((["music"] : FsPath).dropLast
          ++ [(["music"] : FsPath).getLastD "" ++ "_converted"]
          ++ (["sub", "b.wav"] : FsPath).dropLast
          ++ [stem ((["sub", "b.wav"] : FsPath).getLastD "") ++ ".flac"]) :=
  ⟨by decide, c2_output_path_layout ["music"] ["sub", "b.wav"] (by decide)⟩

/-- Claim C3: whenever a staging directory was set up (`cacheDirSet`),
the staging directory is absent once the run completes — for every run
body and every starting state, whether the body completed normally,
raised, or was interrupted, since the `finally` block always runs the
conditional cleanup. -/
theorem c3_staging_dir_removed_after_run
    (body : MainState → RunExit × MainState) (s : MainState) :
    ((main_run true body s).2).cacheDirOnDisk = false := by
  unfold main_run tryFinallyRun mainFinally cleanup_cache
  cases h : (body s).2.cacheDirOnDisk <;> simp [h]

/-- Claim C4: the capacity check reports sufficient exactly when the
available free space is at least `6/5` (that is, 1.2) times the total
candidate size; in particular 100GB available suffices for a 50GB file
set, while exactly 50GB available does not (60GB being required). -/
theorem c4_capacity_margin :
    (∀ (total free : ℚ) (u : Bool),
        check_cache_disk_space total (Except.ok free) u = true
          ↔ total * (6 / 5) ≤ free)
    ∧ check_cache_disk_space (50 * GB) (Except.ok (100 * GB)) true = true
    ∧ check_cache_disk_space (50 * GB) (Except.ok (50 * GB)) true = false := by
  refine ⟨fun total free u => ?_, ?_, ?_⟩
  · simp only [check_cache_disk_space]
    by_cases h : free < total * (6 / 5)
    · simp [h, not_le.mpr h]
    · simp [h, not_lt.mp h]
  · norm_num [check_cache_disk_space, GB]
  · norm_num [check_cache_disk_space, GB]

/-- Claim C5: a conversion job whose transcoder subprocess runs past the
300-second limit produces a failure result carrying the timeout-specific
message, never a success. -/
theorem c5_timeout_reported_as_failure (b : FFmpegRun) (rel : FsPath)
    (output_filename : String) (input_size output_size : Nat)
    (h : 300 < b.duration) :
    (convert_wav_to_flac b rel output_filename input_size
        output_size).success = false ∧
    (convert_wav_to_flac b rel output_filename input_size
        output_size).message = ConvMessage.timedOut := by
  simp [convert_wav_to_flac, subprocess_run, h]

/-- Witness for C5: a subprocess running 301 seconds times out and is
reported as a failure with the timeout message. -/
theorem c5_timeout_reported_as_failure_witness :
    (300 : ℚ) < 301 ∧
    ((convert_wav_to_flac ⟨301, 0, "", true⟩ ["a.wav"] "a.flac" 10 0).success
        = false ∧
      (convert_wav_to_flac ⟨301, 0, "", true⟩ ["a.wav"] "a.flac" 10 0).message
        = ConvMessage.timedOut) :=
  ⟨by norm_num,
    c5_timeout_reported_as_failure ⟨301, 0, "", true⟩ ["a.wav"] "a.flac" 10 0
      (by norm_num)⟩

/-- Counterexample to claim C6: the capacity check returns a plain
boolean, and when the free-space query fails and the user chooses to
proceed it returns `true` — exactly the value returned for a genuinely
sufficient check — so a caller cannot distinguish CapacityUnknown from
Sufficient by the result. -/
theorem c6_unknown_indistinguishable_counterexample :
    check_cache_disk_space (50 * GB) (Except.error "disk check failed") true
      = true ∧
    check_cache_disk_space (50 * GB) (Except.ok (100 * GB)) true = true := by
  refine ⟨rfl, ?_⟩
  norm_num [check_cache_disk_space, GB]

/-- Claim C6 as amended: when the free-space query itself fails, the
check warns, prompts the user, and returns the user's proceed-anyway
choice as the same plain boolean used for the sufficient and
insufficient outcomes. -/
theorem c6_unknown_returns_user_choice (total : ℚ) (e : String)
    (user_proceed : Bool) :
    check_cache_disk_space total (Except.error e) user_proceed
      = user_proceed := rfl

/-- Claim C7: for every directory tree the scanner returns a sorted,
duplicate-free list, and the result is the same whenever the underlying
enumeration produces the same multiset of entries — in particular two
runs over an unchanged tree return identical ordered results even if the
directory walk enumerates entries in a different order. -/
theorem c7_scanner_sorted_nodup_deterministic (caseSensitive : Bool)
    (root : Option Node) :
    (find_wav_files caseSensitive root).Sorted (· ≤ ·) ∧
    (find_wav_files caseSensitive root).Nodup ∧
    ∀ l₁ l₂ : List FsPath, l₁.Perm l₂ → sortedSet l₁ = sortedSet l₂ := by
  refine ⟨List.sorted_insertionSort _ _, ?_, fun l₁ l₂ h => ?_⟩
  · exact ((List.perm_insertionSort _ _).nodup_iff).mpr (List.nodup_dedup _)
  · exact List.eq_of_perm_of_sorted
      ((List.perm_insertionSort _ _).trans
        (h.dedup.trans (List.perm_insertionSort _ _).symm))
      (List.sorted_insertionSort _ _) (List.sorted_insertionSort _ _)

/-- Witness for C7: two enumerations of the same two files, in opposite
orders, yield the same sorted deduplicated result. -/
theorem c7_scanner_sorted_nodup_deterministic_witness :
    sortedSet [["b.wav"], ["a.wav"]] = sortedSet [["a.wav"], ["b.wav"]] :=
  (c7_scanner_sorted_nodup_deterministic true none).2.2
    [["b.wav"], ["a.wav"]] [["a.wav"], ["b.wav"]]
    (List.Perm.swap ["a.wav"] ["b.wav"] [])

/-- Counterexample to claim C8: scanning a root that does not exist does
not fail — it returns the empty list, the very same result as scanning an
existing empty directory, because pathlib's glob yields nothing (raising
no error) when the root is missing or not a directory. -/
theorem c8_missing_root_counterexample :
    find_wav_files true none = find_wav_files true (some (Node.dir [])) ∧
    find_wav_files true none = [] := by
  constructor
  · simp [find_wav_files, rglob, rglobEntries]
  · rfl

/-- Claim C8 as amended: for a root path that does not exist, or exists
but is a plain file rather than a directory, `find_wav_files` raises no
error and returns the empty list; invalid roots are screened out earlier
by the input-collection step, not by the scanner. -/
theorem c8_invalid_root_returns_empty (caseSensitive : Bool) :
    find_wav_files caseSensitive none = [] ∧
    find_wav_files caseSensitive (some Node.file) = [] :=
  ⟨rfl, rfl⟩

/-- Claim C9, evaluated at the failing input: with case-sensitive glob
matching (POSIX), a file named `song.Wav` — whose extension equals
`.wav` case-insensitively — is matched by neither of the two glob
patterns `*.wav` and `*.WAV` and is omitted from the scan, contradicting
the code's own "case insensitive" comment; with case-insensitive
matching (Windows) the same file is found. -/
theorem c9_mixed_case_extension_missed :
    find_wav_files true (some (Node.dir [("song.Wav", Node.file)])) = [] ∧
    find_wav_files false (some (Node.dir [("song.Wav", Node.file)]))
      = [["song.Wav"]] := by
  constructor <;>
    simp [find_wav_files, rglob, rglobEntries, globMatch, sortedSet]

/-- Claim C10: the compression ratio divides by the input size only when
it is strictly positive; a zero-byte input that converts successfully is
reported as a success whose message carries ratio 0, with no
division-by-zero failure. -/
theorem c10_zero_input_ratio_zero :
    (∀ output_size : Nat, compression_ratio output_size 0 = 0) ∧
    ∀ (b : FFmpegRun) (rel : FsPath) (output_filename : String)
      (output_size : Nat),
      b.duration ≤ 300 → b.exitCode = 0 → b.outputWritten = true →
        (convert_wav_to_flac b rel output_filename 0 output_size).success
            = true ∧
        (convert_wav_to_flac b rel output_filename 0 output_size).message
            = ConvMessage.converted output_filename 0 b.duration := by
  refine ⟨fun output_size => rfl, ?_⟩
  intro b rel output_filename output_size h1 h2 h3
  simp [convert_wav_to_flac, subprocess_run, not_lt.mpr h1, h2, h3,
    compression_ratio]

/-- Witness for C10: a 3-second successful conversion of a zero-byte
input reports success with ratio 0. -/
theorem c10_zero_input_ratio_zero_witness :
    ((3 : ℚ) ≤ 300 ∧ (0 : Int) = 0 ∧ true = true) ∧
    ((convert_wav_to_flac ⟨3, 0, "", true⟩ ["z.wav"] "z.flac" 0 7).success
        = true ∧
      (convert_wav_to_flac ⟨3, 0, "", true⟩ ["z.wav"] "z.flac" 0 7).message
        = ConvMessage.converted "z.flac" 0 3) :=
  ⟨⟨by norm_num, rfl, rfl⟩,
    c10_zero_input_ratio_zero.2 ⟨3, 0, "", true⟩ ["z.wav"] "z.flac" 7
      (by norm_num) rfl rfl⟩

end Wav2Flac
